import Mathlib

/-!
Verification of the benchmarking orchestrator `emqst`
(`src/EMQST_lib/emqst.py`) of the REMQST repository.

The orchestrator is embedded shallowly as a Lean function from its
arguments to the ordered trace of its observable events together with
its outcome (a returned triple, or the Python error it raises).

Modelling conventions, matching the Python source line by line:

* Measurement-operator sets (POVM lists) are represented symbolically by
  the inductive `PSet`: the nominal Pauli set, the single-qubit noisy
  transform of a set, and the depolarized transform of a set.  The two
  noise transforms themselves live in `EMQST_lib/povm.py`, which is not
  part of the provided source; only which transform is applied, and to
  what, is decided by `emqst.py`, and that is what `PSet` records.
* Python object identity is modelled by an allocation id (`Nat`):
  `POVM.generate_Pauli_POVM` allocates id 0, the `np.array([...])` built
  in the noise branch allocates id 1, and the reconstructed set returned
  by `dt.device_tomography` has id 2.  The assignment
  `noisy_POVM_list = POVM_list` in the no-noise branch copies the
  reference, so both names carry id 0 there.
* The `QST` track object (class `QST`, in `EMQST_lib/qst.py`, also not
  in the provided source) is modelled from the spec: it is constructed
  with the nominal operator set, `generate_data` draws the raw outcome
  data once under the operator set passed as override, and
  `perform_MLE`/`perform_BME` with no override fall back to the operator
  set the object was constructed with.  Trajectories and final estimates
  are symbolic tokens recording which data generation and which resolved
  operator set produced them.
* `np.sum(..., axis=0)/n_averages` is modelled exactly over `ℚ` by
  `sum_axis0_at` and `average_at` (an element-wise view; all
  trajectories of a track have equal length).
* Python errors actually reachable in `emqst` are the constructors of
  `PyErr`: the `UnboundLocalError` on `calibration_angles` at the
  `dt.device_tomography` call, the `IndexError` on
  `uncorrected_infidelity[0]` for an empty ensemble, and the error
  `scipy.optimize.curve_fit` raises when given fewer data points than
  the two parameters of `sf.power_law`.
-/

namespace EMQST

/-- Symbolic value of a measurement-operator set (POVM list), recording
which construction in `emqst.py` produced it. -/
inductive PSet where
  /-- `POVM.generate_Pauli_POVM(n_qubits)` (line 59). -/
  | pauli (n_qubits : Nat)
  /-- `POVM.generate_noisy_POVM(povm, noise_mode)` applied elementwise
  (line 78, single-qubit branch). -/
  | noisySingle (mode : Nat) (base : PSet)
  /-- `POVM.depolarized_POVM(povm)` applied elementwise (line 81,
  multi-qubit branch). -/
  | depol (base : PSet)
deriving DecidableEq

/-- Symbolic per-state infidelity trajectory: which true state, which
data generation, and which resolved operator set produced it. -/
structure Traj where
  stateIdx : Nat
  dataGen : Nat
  setRef : Nat
deriving DecidableEq

/-- Symbolic final density-matrix estimate of one track run. -/
structure RhoEstm where
  dataGen : Nat
  setRef : Nat
deriving DecidableEq

/-- Files persisted by `emqst` (each `np.save` other than the
four-array `QST_results` block, which is the `savedResults` event). -/
inductive Artifact where
  | experimentalSettings
  | dtSettings
  | qstSettings
  | averagedPlot
deriving DecidableEq

/-- Observable events of one `emqst` run, in program order. -/
inductive Ev where
  /-- The warning printed when experimental measurements disable noise
  (line 73). -/
  | warnedNoiseDisabled
  /-- The single-qubit noise transform was invoked with this mode. -/
  | noiseSingle (mode : Nat)
  /-- The depolarizing transform was invoked. -/
  | noiseDepol
  /-- `dt.device_tomography` was invoked (line 87). -/
  | dtCall
  /-- A named artifact was persisted. -/
  | saved (f : Artifact)
  /-- `qst.generate_data(override_POVM_list=...)` was invoked with the
  operator set having this allocation id (line 113). -/
  | genData (setRef : Nat)
  /-- `qst.perform_MLE`/`qst.perform_BME` was invoked with this
  override (`none` = no override argument). -/
  | estimate (overrideRef : Option Nat)
  /-- `curve_fit` was invoked on a post-transient slice of this
  length (lines 156, 158). -/
  | fitAttempt (npoints : Nat)
  /-- The `QST_results` file was written with these four arrays, in
  order (lines 146-151). -/
  | savedResults (c u : List Traj) (cr ur : RhoEstm)
deriving DecidableEq

/-- Python errors reachable in `emqst`. -/
inductive PyErr where
  /-- `UnboundLocalError` on `calibration_angles` at line 87: the name
  is only assigned in the `calibration_states is None` branch. -/
  | unboundLocalCalibrationAngles
  /-- `IndexError` on `uncorrected_infidelity[0]` at line 142. -/
  | indexError
  /-- Error raised by `scipy.optimize.curve_fit` when the sliced data
  has fewer points than the two model parameters. -/
  | curveFitError
deriving DecidableEq

/-- The arguments of `emqst` that its control flow inspects.  The
true-state ensemble enters only through its length, the calibration
states only through whether the argument is `None`. -/
structure EmArgs where
  n_qubits : Nat
  n_QST_shots_each : Nat
  n_calibration_shots_each : Nat
  n_true_states : Nat
  calibration_states_given : Bool
  bool_exp_measurements : Bool
  n_cores : Nat
  noise_mode : Nat
  method : String
deriving DecidableEq

/-- The triple `emqst` returns (line 182). -/
structure EmRet where
  corrected_infidelity : List Traj
  uncorrected_infidelity : List Traj
  corrected_rho_estm : RhoEstm
deriving DecidableEq

/-- Allocation id of `POVM_list = POVM.generate_Pauli_POVM(n_qubits)`. -/
def nominalRef : Nat := 0

/-- Allocation id of the fresh `np.array` built in the noise branch. -/
def noisyFreshRef : Nat := 1

/-- Allocation id of `reconstructed_POVM_list` from device tomography. -/
def reconRef : Nat := 2

/-- Noise mode after the experimental-measurement override
(lines 70-72): `noise_mode = 0` when `bool_exp_measurements`. -/
def effNoiseMode (a : EmArgs) : Nat :=
  if a.bool_exp_measurements then 0 else a.noise_mode

/-- Value of `noisy_POVM_list` (lines 75-84): for truthy noise mode,
single-qubit runs get the per-mode transform, every other qubit count
gets the depolarizing transform; otherwise the nominal set itself. -/
def noisyVal (a : EmArgs) : PSet :=
  if effNoiseMode a ≠ 0 then
    if a.n_qubits == 1 then PSet.noisySingle (effNoiseMode a) (PSet.pauli a.n_qubits)
    else PSet.depol (PSet.pauli a.n_qubits)
  else PSet.pauli a.n_qubits

/-- Allocation id of `noisy_POVM_list`: a fresh array in the noise
branches, the very object `POVM_list` in the `else` branch
(`noisy_POVM_list = POVM_list`, line 83). -/
def noisyRef (a : EmArgs) : Nat :=
  if effNoiseMode a ≠ 0 then noisyFreshRef else nominalRef

/-- Noise-transform invocations of lines 75-84, as trace events. -/
def noiseEvents (a : EmArgs) : List Ev :=
  if effNoiseMode a ≠ 0 then
    if a.n_qubits == 1 then [Ev.noiseSingle (effNoiseMode a)]
    else [Ev.noiseDepol]
  else []

/-- Number of Pauli POVMs: one per basis choice, `3 ^ n_qubits`. -/
def nPOVMs (n_qubits : Nat) : Nat := 3 ^ n_qubits

/-- Modelled from the spec: the per-shot trajectory length produced by
the `QST` class (`EMQST_lib/qst.py`, not in the provided source) equals
the number of QST shots, `n_QST_shots_each` per POVM over all Pauli
POVMs.  `sample_step = np.arange(len(uncorrected_infidelity[0]))`
(line 142) then has this length. -/
def shotsTotal (a : EmArgs) : Nat := a.n_QST_shots_each * nPOVMs a.n_qubits

/-- Modelled from the spec: `get_infidelity()` returns one trajectory
per true state of the ensemble, each produced from the recorded raw
data generation under the resolved operator set of the most recent
`perform_MLE`/`perform_BME` run. -/
def mkTrajs (nStates dataGen setRef : Nat) : List Traj :=
  (List.range nStates).map (fun i => ⟨i, dataGen, setRef⟩)

/-- Corrected-track trajectories: data generation 0 under the
reconstructed operator set (override at line 119/121). -/
def corrTrajs (a : EmArgs) : List Traj := mkTrajs a.n_true_states 0 reconRef

/-- Uncorrected-track trajectories: data generation 0, resolved set =
the construction set `POVM_list` (no override at line 133/135). -/
def uncorrTrajs (a : EmArgs) : List Traj := mkTrajs a.n_true_states 0 nominalRef

/-- Corrected final estimate token. -/
def corrRho : RhoEstm := ⟨0, reconRef⟩

/-- Uncorrected final estimate token. -/
def uncorrRho : RhoEstm := ⟨0, nominalRef⟩

/-- Trace of everything `emqst` does before the `dt.device_tomography`
call: persist `experimental_settings` (line 52), possibly warn that
noise is disabled (line 73), run the noise transforms (lines 75-84). -/
def tracePre (a : EmArgs) : List Ev :=
  Ev.saved Artifact.experimentalSettings ::
    ((if a.bool_exp_measurements then [Ev.warnedNoiseDisabled] else []) ++ noiseEvents a)

/-- Trace from the device-tomography call through both estimation
runs: calibrate (line 87), persist `DT_settings` (line 102), construct
the track and generate data once under the noisy set (lines 112-113),
persist the QST settings (line 116), run the corrected estimation with
the reconstructed set as override (lines 119-121), then the
uncorrected estimation with no override (lines 133-135). -/
def traceCore (a : EmArgs) : List Ev :=
  [Ev.dtCall, Ev.saved Artifact.dtSettings, Ev.genData (noisyRef a),
   Ev.saved Artifact.qstSettings,
   Ev.estimate (some reconRef), Ev.estimate none]

/-- Shallow embedding of `emqst` (`src/EMQST_lib/emqst.py`): the
ordered trace of observable events, and the outcome (the returned
triple, or the Python error raised). -/
def emqst (a : EmArgs) : List Ev × Except PyErr EmRet :=
  -- Lines 55-56: `calibration_angles` is bound only when
  -- `calibration_states is None`; otherwise evaluating it as an
  -- argument at line 87 raises UnboundLocalError.
  if a.calibration_states_given then
    (tracePre a, Except.error PyErr.unboundLocalCalibrationAngles)
  else
    let t1 := tracePre a ++ traceCore a
    let cInf := corrTrajs a
    let uInf := uncorrTrajs a
    -- Line 142: `np.arange(len(uncorrected_infidelity[0]))` indexes the
    -- first trajectory; an empty ensemble raises IndexError here,
    -- before the axis-0 sums and the division at lines 143-144.
    match uInf.head? with
    | none => (t1, Except.error PyErr.indexError)
    | some _ =>
      -- Lines 146-151: persist the four result arrays in order.
      let t2 := t1 ++ [Ev.savedResults cInf uInf corrRho uncorrRho]
      -- Lines 154-176: fit and plot only off-cluster with BME; the
      -- slices `[1000:]` have length `shotsTotal - 1000` (truncated),
      -- and `curve_fit` on `sf.power_law` needs at least its two
      -- parameters' worth of points.
      if a.n_cores < 10 ∧ a.method = "BME" then
        let npoints := shotsTotal a - 1000
        let t3 := t2 ++ [Ev.fitAttempt npoints]
        if npoints < 2 then
          (t3, Except.error PyErr.curveFitError)
        else
          (t3 ++ [Ev.saved Artifact.averagedPlot],
           Except.ok ⟨cInf, uInf, corrRho⟩)
      else
        (t2, Except.ok ⟨cInf, uInf, corrRho⟩)

/-- `np.sum(trajs, axis=0)` viewed at column `i` (all trajectories of a
track have equal length, so the default is never sampled in range). -/
def sum_axis0_at (trajs : List (List ℚ)) (i : Nat) : ℚ :=
  (trajs.map (fun t => t.getD i 0)).sum

/-- Column `i` of `np.sum(trajs, axis=0) / n_averages`
(lines 141, 143-144), with `n_averages = len(true_state_list)` the
number of trajectories. -/
def average_at (trajs : List (List ℚ)) (i : Nat) : ℚ :=
  sum_axis0_at trajs i / trajs.length

/-- Events of a trace that touch the raw outcome data: generating it,
or running an estimation over it. -/
def isDataEvent : Ev → Bool
  | Ev.genData _ => true
  | Ev.estimate _ => true
  | _ => false

/-- Events recording a noise-transform invocation. -/
def isNoiseEvent : Ev → Bool
  | Ev.noiseSingle _ => true
  | Ev.noiseDepol => true
  | _ => false

/-- Events recording an estimation run. -/
def isEstimateEvent : Ev → Bool
  | Ev.estimate _ => true
  | _ => false

/-- Events recording a curve-fit invocation. -/
def isFitEvent : Ev → Bool
  | Ev.fitAttempt _ => true
  | _ => false

/-- The triple a successful run returns (line 182). -/
def retOf (a : EmArgs) : EmRet := ⟨corrTrajs a, uncorrTrajs a, corrRho⟩

/-- The `QST_results` persistence event of a run (lines 146-151). -/
def savedResultsEv (a : EmArgs) : Ev :=
  Ev.savedResults (corrTrajs a) (uncorrTrajs a) corrRho uncorrRho

/-- Concrete run arguments: one qubit, no noise, MLE, on-cluster. -/
def argsC1 : EmArgs :=
  ⟨1, 4, 4, 2, false, false, 12, 0, "MLE"⟩

/-- Concrete run arguments: two qubits, synthetic noise mode 2. -/
def argsC2 : EmArgs :=
  ⟨2, 4, 4, 1, false, false, 12, 2, "MLE"⟩

/-- Concrete run arguments for the amended multi-qubit noise claim. -/
def argsC2b : EmArgs :=
  ⟨3, 4, 4, 1, false, false, 12, 5, "MLE"⟩

/-- Concrete run arguments: empty true-state ensemble, BME off-cluster. -/
def argsC3 : EmArgs :=
  ⟨1, 4, 4, 0, false, false, 1, 0, "BME"⟩

/-- Concrete run arguments with caller-provided calibration states. -/
def argsC4 : EmArgs :=
  ⟨1, 4, 4, 1, true, false, 1, 0, "MLE"⟩

/-- Concrete run arguments: no-noise mode 0 run. -/
def argsC5 : EmArgs :=
  ⟨1, 4, 4, 1, false, false, 12, 0, "MLE"⟩

/-- Concrete run arguments: experimental measurements with a nonzero
requested noise mode. -/
def argsC6 : EmArgs :=
  ⟨1, 4, 4, 1, false, true, 12, 7, "MLE"⟩

/-- Concrete run arguments: BME off-cluster with 15 total shots, fewer
than the 1000-shot transient excluded by the fitting window. -/
def argsC7 : EmArgs :=
  ⟨1, 5, 4, 1, false, false, 1, 0, "BME"⟩

/-- Concrete run arguments: single qubit, synthetic noise mode 3. -/
def argsC9 : EmArgs :=
  ⟨1, 4, 4, 1, false, false, 12, 3, "MLE"⟩

/-- Concrete run arguments: a successful MLE run. -/
def argsC10 : EmArgs :=
  ⟨1, 4, 4, 1, false, false, 12, 0, "MLE"⟩

/-! ### Branch-evaluation lemmas for `emqst` -/

theorem mkTrajs_head_none (d s : Nat) : (mkTrajs 0 d s).head? = none := rfl

theorem mkTrajs_head_some (n d s : Nat) :
    (mkTrajs (n + 1) d s).head? = some ⟨0, d, s⟩ := by
  simp [mkTrajs, List.range_succ_eq_map]

theorem emqst_cal_given (a : EmArgs) (h : a.calibration_states_given = true) :
    emqst a = (tracePre a, Except.error PyErr.unboundLocalCalibrationAngles) := by
  simp [emqst, h]

theorem emqst_empty_ensemble (a : EmArgs)
    (h1 : a.calibration_states_given = false) (h2 : a.n_true_states = 0) :
    emqst a = (tracePre a ++ traceCore a, Except.error PyErr.indexError) := by
  simp [emqst, h1, uncorrTrajs, h2, mkTrajs_head_none]

theorem emqst_no_fit (a : EmArgs)
    (h1 : a.calibration_states_given = false) (h2 : a.n_true_states ≠ 0)
    (h3 : ¬(a.n_cores < 10 ∧ a.method = "BME")) :
    emqst a = (tracePre a ++ traceCore a ++ [savedResultsEv a],
               Except.ok (retOf a)) := by
  obtain ⟨n, hn⟩ := Nat.exists_eq_succ_of_ne_zero h2
  simp [emqst, h1, uncorrTrajs, hn, mkTrajs_head_some, h3, savedResultsEv, retOf,
    corrTrajs, uncorrTrajs]

theorem emqst_fit_fails (a : EmArgs)
    (h1 : a.calibration_states_given = false) (h2 : a.n_true_states ≠ 0)
    (h3 : a.n_cores < 10 ∧ a.method = "BME") (h4 : shotsTotal a - 1000 < 2) :
    emqst a = (tracePre a ++ traceCore a ++
                 [savedResultsEv a, Ev.fitAttempt (shotsTotal a - 1000)],
               Except.error PyErr.curveFitError) := by
  obtain ⟨n, hn⟩ := Nat.exists_eq_succ_of_ne_zero h2
  simp [emqst, h1, uncorrTrajs, hn, mkTrajs_head_some, h3, h4, savedResultsEv,
    corrTrajs, uncorrTrajs]

theorem emqst_fit_succeeds (a : EmArgs)
    (h1 : a.calibration_states_given = false) (h2 : a.n_true_states ≠ 0)
    (h3 : a.n_cores < 10 ∧ a.method = "BME") (h4 : ¬(shotsTotal a - 1000 < 2)) :
    emqst a = (tracePre a ++ traceCore a ++
                 [savedResultsEv a, Ev.fitAttempt (shotsTotal a - 1000),
                  Ev.saved Artifact.averagedPlot],
               Except.ok (retOf a)) := by
  obtain ⟨n, hn⟩ := Nat.exists_eq_succ_of_ne_zero h2
  simp [emqst, h1, uncorrTrajs, hn, mkTrajs_head_some, h3, h4, savedResultsEv, retOf,
    corrTrajs, uncorrTrajs]

theorem tracePre_filter_data (a : EmArgs) :
    (tracePre a).filter isDataEvent = [] := by
  simp only [tracePre, noiseEvents]
  split_ifs <;> simp [isDataEvent]

theorem tracePre_filter_fit (a : EmArgs) :
    (tracePre a).filter isFitEvent = [] := by
  simp only [tracePre, noiseEvents]
  split_ifs <;> simp [isFitEvent]

theorem tracePre_filter_noise (a : EmArgs) (h : effNoiseMode a = 0) :
    (tracePre a).filter isNoiseEvent = [] := by
  simp only [tracePre, noiseEvents, h]
  split <;> simp [isNoiseEvent]

theorem traceCore_filter_data (a : EmArgs) :
    (traceCore a).filter isDataEvent
      = [Ev.genData (noisyRef a), Ev.estimate (some reconRef), Ev.estimate none] := by
  simp [traceCore, isDataEvent]

theorem traceCore_filter_noise (a : EmArgs) :
    (traceCore a).filter isNoiseEvent = [] := by
  simp [traceCore, isNoiseEvent]

theorem traceCore_filter_fit (a : EmArgs) :
    (traceCore a).filter isFitEvent = [] := by
  simp [traceCore, isFitEvent]

/-- Every run with `calibration_states` left to its default has a trace
of the form `tracePre ++ traceCore ++ rest`, where `rest` holds no
data-generation, estimation or noise event. -/
theorem emqst_trace_decomp (a : EmArgs) (h : a.calibration_states_given = false) :
    ∃ rest, (emqst a).1 = tracePre a ++ traceCore a ++ rest
      ∧ rest.filter isDataEvent = [] ∧ rest.filter isNoiseEvent = [] := by
  by_cases h2 : a.n_true_states = 0
  · exact ⟨[], by simp [emqst_empty_ensemble a h h2], rfl, rfl⟩
  · by_cases h3 : a.n_cores < 10 ∧ a.method = "BME"
    · by_cases h4 : shotsTotal a - 1000 < 2
      · refine ⟨[savedResultsEv a, Ev.fitAttempt (shotsTotal a - 1000)], ?_, ?_, ?_⟩
        · simp [emqst_fit_fails a h h2 h3 h4]
        · simp [isDataEvent, savedResultsEv]
        · simp [isNoiseEvent, savedResultsEv]
      · refine ⟨[savedResultsEv a, Ev.fitAttempt (shotsTotal a - 1000),
            Ev.saved Artifact.averagedPlot], ?_, ?_, ?_⟩
        · simp [emqst_fit_succeeds a h h2 h3 h4]
        · simp [isDataEvent, savedResultsEv]
        · simp [isNoiseEvent, savedResultsEv]
    · refine ⟨[savedResultsEv a], ?_, ?_, ?_⟩
      · simp [emqst_no_fit a h h2 h3]
      · simp [isDataEvent, savedResultsEv]
      · simp [isNoiseEvent, savedResultsEv]

/-- Whenever `emqst` returns successfully, the result is the triple
`retOf` and the four-array `QST_results` file was persisted. -/
theorem emqst_ok_inv (a : EmArgs) (r : EmRet) (h : (emqst a).2 = Except.ok r) :
    r = retOf a ∧ savedResultsEv a ∈ (emqst a).1 := by
  by_cases h1 : a.calibration_states_given
  · rw [emqst_cal_given a h1] at h; exact absurd h (by simp)
  · rw [Bool.not_eq_true] at h1
    by_cases h2 : a.n_true_states = 0
    · rw [emqst_empty_ensemble a h1 h2] at h; exact absurd h (by simp)
    · by_cases h3 : a.n_cores < 10 ∧ a.method = "BME"
      · by_cases h4 : shotsTotal a - 1000 < 2
        · rw [emqst_fit_fails a h1 h2 h3 h4] at h; exact absurd h (by simp)
        · rw [emqst_fit_succeeds a h1 h2 h3 h4] at h
          refine ⟨by simpa using h.symm, ?_⟩
          rw [emqst_fit_succeeds a h1 h2 h3 h4]
          simp
      · rw [emqst_no_fit a h1 h2 h3] at h
        refine ⟨by simpa using h.symm, ?_⟩
        rw [emqst_no_fit a h1 h2 h3]
        simp

theorem tracePre_filter_est (a : EmArgs) :
    (tracePre a).filter isEstimateEvent = [] := by
  simp only [tracePre, noiseEvents]
  split_ifs <;> simp [isEstimateEvent]

theorem traceCore_filter_est (a : EmArgs) :
    (traceCore a).filter isEstimateEvent
      = [Ev.estimate (some reconRef), Ev.estimate none] := by
  simp [traceCore, isEstimateEvent]

theorem filter_est_of_filter_data (l : List Ev)
    (h : l.filter isDataEvent = []) : l.filter isEstimateEvent = [] := by
  rw [List.filter_eq_nil_iff] at h ⊢
  intro e he
  have h2 := h e he
  cases e <;> simp_all [isDataEvent, isEstimateEvent]

/-- C1: in every run that reaches data generation (calibration states
left to their default), the raw outcome data is generated exactly once,
under the noisy operator set, before both estimation runs — first the
corrected run with the reconstructed set as override, then the
uncorrected run on the same track object — and both tracks' returned
trajectories are computed from that single generation (generation 0),
so only the operator set differs between the two comparative runs. -/
theorem C1_single_generation_shared_by_both_tracks (a : EmArgs)
    (h : a.calibration_states_given = false) :
    (emqst a).1.filter isDataEvent
        = [Ev.genData (noisyRef a), Ev.estimate (some reconRef), Ev.estimate none]
      ∧ ∀ r, (emqst a).2 = Except.ok r →
          (∀ t ∈ r.corrected_infidelity, t.dataGen = 0)
          ∧ (∀ t ∈ r.uncorrected_infidelity, t.dataGen = 0) := by
  obtain ⟨rest, htr, hd, -⟩ := emqst_trace_decomp a h
  constructor
  · rw [htr]
    simp [List.filter_append, tracePre_filter_data, traceCore_filter_data, hd]
  · intro r hr
    obtain ⟨hret, -⟩ := emqst_ok_inv a r hr
    subst hret
    constructor
    · intro t ht
      simp [retOf, corrTrajs, mkTrajs] at ht
      obtain ⟨i, -, rfl⟩ := ht
      rfl
    · intro t ht
      simp [retOf, uncorrTrajs, mkTrajs] at ht
      obtain ⟨i, -, rfl⟩ := ht
      rfl

/-- Witness for C1 at concrete arguments. -/
theorem C1_witness :
    argsC1.calibration_states_given = false
    ∧ ((emqst argsC1).1.filter isDataEvent
        = [Ev.genData (noisyRef argsC1), Ev.estimate (some reconRef), Ev.estimate none]
      ∧ ∀ r, (emqst argsC1).2 = Except.ok r →
          (∀ t ∈ r.corrected_infidelity, t.dataGen = 0)
          ∧ (∀ t ∈ r.uncorrected_infidelity, t.dataGen = 0)) :=
  ⟨rfl, C1_single_generation_shared_by_both_tracks argsC1 rfl⟩

/-- C2 counterexample: a two-qubit run requesting noise mode 2 does not
fail fast — the depolarizing transform is silently applied, the
calibration stage executes, and the run completes successfully. -/
theorem C2_counterexample :
    argsC2.n_qubits = 2 ∧ argsC2.noise_mode = 2
    ∧ noisyVal argsC2 = PSet.depol (PSet.pauli 2)
    ∧ Ev.noiseDepol ∈ (emqst argsC2).1
    ∧ Ev.dtCall ∈ (emqst argsC2).1
    ∧ (emqst argsC2).2 = Except.ok (retOf argsC2) := by
  refine ⟨rfl, rfl, rfl, ?_, ?_, rfl⟩ <;> decide

/-- C2 amended: for every run with a nonzero effective noise mode on a
system that is not single-qubit, `emqst` silently applies the
depolarizing transform regardless of which mode was requested; no
`UnsupportedNoiseError` (or any error) is raised by the noise dispatch,
and the run proceeds into the calibration stage. -/
theorem C2_amended_silent_depolarizing_fallback (a : EmArgs)
    (h1 : effNoiseMode a ≠ 0) (h2 : a.n_qubits ≠ 1) :
    noisyVal a = PSet.depol (PSet.pauli a.n_qubits)
    ∧ noiseEvents a = [Ev.noiseDepol]
    ∧ (a.calibration_states_given = false → Ev.dtCall ∈ (emqst a).1) := by
  refine ⟨?_, ?_, ?_⟩
  · simp [noisyVal, h1, h2]
  · simp [noiseEvents, h1, h2]
  · intro h
    obtain ⟨rest, htr, -, -⟩ := emqst_trace_decomp a h
    rw [htr]
    simp [traceCore]

/-- Witness for the amended C2 at concrete arguments. -/
theorem C2_amended_witness :
    effNoiseMode argsC2b ≠ 0 ∧ argsC2b.n_qubits ≠ 1
    ∧ (noisyVal argsC2b = PSet.depol (PSet.pauli argsC2b.n_qubits)
      ∧ noiseEvents argsC2b = [Ev.noiseDepol]
      ∧ (argsC2b.calibration_states_given = false →
          Ev.dtCall ∈ (emqst argsC2b).1)) :=
  ⟨by decide, by decide,
   C2_amended_silent_depolarizing_fallback argsC2b (by decide) (by decide)⟩

/-- C3 counterexample: a run with an empty true-state ensemble fails
with `IndexError` (at `uncorrected_infidelity[0]`, line 142), not with
an `EmptyEnsembleError`; the aggregation division is never reached. -/
theorem C3_counterexample :
    argsC3.n_true_states = 0
    ∧ (emqst argsC3).2 = Except.error PyErr.indexError
    ∧ (emqst argsC3).1.filter isFitEvent = [] := by
  exact ⟨rfl, rfl, rfl⟩

/-- C3 amended: for every run with an empty true-state ensemble (and
default calibration states, so the run reaches aggregation), `emqst`
fails with a Python `IndexError` when indexing the first trajectory of
the empty uncorrected collection at line 142; no `EmptyEnsembleError`
exists in the code, and the zero division at lines 143-144 is never
executed (the error precedes it). -/
theorem C3_amended_empty_ensemble_raises_index_error (a : EmArgs)
    (h1 : a.calibration_states_given = false) (h2 : a.n_true_states = 0) :
    (emqst a).2 = Except.error PyErr.indexError
    ∧ (emqst a).1.filter isFitEvent = [] := by
  rw [emqst_empty_ensemble a h1 h2]
  exact ⟨rfl, by simp [List.filter_append, tracePre_filter_fit, traceCore_filter_fit]⟩

/-- Witness for the amended C3 at concrete arguments. -/
theorem C3_amended_witness :
    argsC3.calibration_states_given = false ∧ argsC3.n_true_states = 0
    ∧ ((emqst argsC3).2 = Except.error PyErr.indexError
      ∧ (emqst argsC3).1.filter isFitEvent = []) :=
  ⟨rfl, rfl, C3_amended_empty_ensemble_raises_index_error argsC3 rfl rfl⟩

/-- C4: every call supplying a non-`None` `calibration_states` leaves
`calibration_angles` unbound (it is only assigned in the
`calibration_states is None` branch, lines 55-56), so evaluating it as
an argument of the `dt.device_tomography` call at line 87 raises an
unbound-local error and the calibration stage is never entered. -/
theorem C4_supplied_calibration_states_unbound_angles (a : EmArgs)
    (h : a.calibration_states_given = true) :
    (emqst a).2 = Except.error PyErr.unboundLocalCalibrationAngles
    ∧ Ev.dtCall ∉ (emqst a).1 := by
  rw [emqst_cal_given a h]
  refine ⟨rfl, ?_⟩
  simp only [tracePre, noiseEvents]
  split_ifs <;> simp

/-- Witness for C4 at concrete arguments. -/
theorem C4_witness :
    argsC4.calibration_states_given = true
    ∧ ((emqst argsC4).2 = Except.error PyErr.unboundLocalCalibrationAngles
      ∧ Ev.dtCall ∉ (emqst argsC4).1) :=
  ⟨rfl, C4_supplied_calibration_states_unbound_angles argsC4 rfl⟩

/-- C5 counterexample: in a noise-mode-0 run the noisy operator set is
the very same Python object as the nominal set (the assignment
`noisy_POVM_list = POVM_list` at line 83 copies the reference), not a
reference-safe copy: both carry allocation id `nominalRef`. -/
theorem C5_counterexample :
    effNoiseMode argsC5 = 0
    ∧ noisyVal argsC5 = PSet.pauli argsC5.n_qubits
    ∧ noisyRef argsC5 = nominalRef
    ∧ Ev.genData nominalRef ∈ (emqst argsC5).1 := by
  decide

/-- C5 amended: for every run with effective noise mode 0, the noisy
operator set equals the nominal operator set exactly and no noise
transform is applied; however the noisy set is an alias of the nominal
set (the same object), not a copy of it. -/
theorem C5_amended_no_noise_equal_but_aliased (a : EmArgs)
    (h : effNoiseMode a = 0) :
    noisyVal a = PSet.pauli a.n_qubits
    ∧ noisyRef a = nominalRef
    ∧ noiseEvents a = [] := by
  simp [noisyVal, noisyRef, noiseEvents, h]

/-- Witness for the amended C5 at concrete arguments. -/
theorem C5_amended_witness :
    effNoiseMode argsC5 = 0
    ∧ (noisyVal argsC5 = PSet.pauli argsC5.n_qubits
      ∧ noisyRef argsC5 = nominalRef
      ∧ noiseEvents argsC5 = []) :=
  ⟨rfl, C5_amended_no_noise_equal_but_aliased argsC5 rfl⟩

/-- C6: every call with the experimental-measurement flag set forces
the noise mode to 0 whatever mode was requested, invokes no noise
transform anywhere in the run, uses the nominal set as the noisy set,
and warns the caller that noise is disabled. -/
theorem C6_experimental_measurements_disable_noise (a : EmArgs)
    (h : a.bool_exp_measurements = true) :
    effNoiseMode a = 0
    ∧ noisyVal a = PSet.pauli a.n_qubits
    ∧ (emqst a).1.filter isNoiseEvent = []
    ∧ Ev.warnedNoiseDisabled ∈ (emqst a).1 := by
  have h0 : effNoiseMode a = 0 := by simp [effNoiseMode, h]
  refine ⟨h0, by simp [noisyVal, h0], ?_, ?_⟩
  · by_cases h1 : a.calibration_states_given
    · rw [emqst_cal_given a h1]
      exact tracePre_filter_noise a h0
    · rw [Bool.not_eq_true] at h1
      obtain ⟨rest, htr, -, hn⟩ := emqst_trace_decomp a h1
      rw [htr]
      simp [List.filter_append, tracePre_filter_noise a h0, traceCore_filter_noise, hn]
  · have hw : Ev.warnedNoiseDisabled ∈ tracePre a := by simp [tracePre, h]
    by_cases h1 : a.calibration_states_given
    · rw [emqst_cal_given a h1]
      exact hw
    · rw [Bool.not_eq_true] at h1
      obtain ⟨rest, htr, -, -⟩ := emqst_trace_decomp a h1
      rw [htr]
      exact List.mem_append_left _ (List.mem_append_left _ hw)

/-- Witness for C6 at concrete arguments (requested mode 7). -/
theorem C6_witness :
    argsC6.bool_exp_measurements = true
    ∧ (effNoiseMode argsC6 = 0
      ∧ noisyVal argsC6 = PSet.pauli argsC6.n_qubits
      ∧ (emqst argsC6).1.filter isNoiseEvent = []
      ∧ Ev.warnedNoiseDisabled ∈ (emqst argsC6).1) :=
  ⟨rfl, C6_experimental_measurements_disable_noise argsC6 rfl⟩

/-- C7 counterexample: a BME run off-cluster with 15 total shots (below
the 1000-shot transient excluded by the fitting window) still attempts
curve fitting — on an empty slice — and the run fails with the fitting
error instead of succeeding with trajectories only. -/
theorem C7_counterexample :
    shotsTotal argsC7 < 1000
    ∧ Ev.fitAttempt 0 ∈ (emqst argsC7).1
    ∧ (emqst argsC7).2 = Except.error PyErr.curveFitError := by
  refine ⟨?_, ?_, rfl⟩ <;> decide

/-- C7 amended: for every run that performs curve fitting (BME, low
parallelism) whose total shot count is below the fitting window's
excluded prefix of 1000, the fit is still attempted — there is no
shot-count guard — on the empty post-transient slice, and the run fails
with the curve-fit error rather than succeeding with trajectories
only. -/
theorem C7_amended_fit_attempted_and_run_fails (a : EmArgs)
    (h1 : a.calibration_states_given = false) (h2 : a.n_true_states ≠ 0)
    (h3 : a.n_cores < 10) (h4 : a.method = "BME") (h5 : shotsTotal a < 1000) :
    Ev.fitAttempt 0 ∈ (emqst a).1
    ∧ (emqst a).2 = Except.error PyErr.curveFitError := by
  have hz : shotsTotal a - 1000 = 0 := Nat.sub_eq_zero_of_le (le_of_lt h5)
  have he := emqst_fit_fails a h1 h2 ⟨h3, h4⟩ (by rw [hz]; decide)
  rw [he]
  exact ⟨by simp [hz], rfl⟩

/-- Witness for the amended C7 at concrete arguments. -/
theorem C7_amended_witness :
    argsC7.calibration_states_given = false ∧ argsC7.n_true_states ≠ 0
    ∧ argsC7.n_cores < 10 ∧ argsC7.method = "BME" ∧ shotsTotal argsC7 < 1000
    ∧ (Ev.fitAttempt 0 ∈ (emqst argsC7).1
      ∧ (emqst argsC7).2 = Except.error PyErr.curveFitError) :=
  ⟨rfl, by decide, by decide, rfl, by decide,
   C7_amended_fit_attempted_and_run_fails argsC7 rfl (by decide) (by decide) rfl
     (by decide)⟩

/-- C8: the aggregate (the column-wise mean
`np.sum(trajs, axis=0) / n_averages` of lines 141, 143-144) of a
non-empty trajectory collection is invariant under permutation of the
ensemble's iteration order, summation being commutative. -/
theorem C8_average_invariant_under_permutation (t t' : List (List ℚ))
    (hp : t.Perm t') (_hne : t ≠ []) (i : Nat) :
    average_at t i = average_at t' i := by
  unfold average_at sum_axis0_at
  rw [hp.length_eq, (hp.map (fun l => l.getD i 0)).sum_eq]

/-- Witness for C8: swapping a two-state ensemble. -/
theorem C8_witness :
    ([[(1 : ℚ), 2], [3, 4]] : List (List ℚ)).Perm [[3, 4], [1, 2]]
    ∧ ([[(1 : ℚ), 2], [3, 4]] : List (List ℚ)) ≠ []
    ∧ average_at [[(1 : ℚ), 2], [3, 4]] 0 = average_at [[3, 4], [1, 2]] 0 :=
  ⟨List.Perm.swap _ _ _, by simp,
   C8_average_invariant_under_permutation _ _ (List.Perm.swap _ _ _) (by simp) 0⟩

/-- C9: in every noisy run reaching estimation, the uncorrected
estimation is invoked with no operator-set override (second `estimate`
event carries `none`), so it is evaluated under the nominal operator
set the track object was constructed with; the raw data, however, was
generated under the noisy set, which is a different object from the
nominal set and a different operator set whenever the effective noise
mode is nonzero. -/
theorem C9_uncorrected_runs_under_nominal_set (a : EmArgs)
    (hc : a.calibration_states_given = false) (hm : effNoiseMode a ≠ 0) :
    (emqst a).1.filter isEstimateEvent
        = [Ev.estimate (some reconRef), Ev.estimate none]
    ∧ (∀ t ∈ uncorrTrajs a, t.setRef = nominalRef ∧ t.dataGen = 0)
    ∧ Ev.genData noisyFreshRef ∈ (emqst a).1
    ∧ noisyRef a ≠ nominalRef
    ∧ noisyVal a ≠ PSet.pauli a.n_qubits := by
  obtain ⟨rest, htr, hd, -⟩ := emqst_trace_decomp a hc
  refine ⟨?_, ?_, ?_, ?_, ?_⟩
  · rw [htr]
    simp [List.filter_append, tracePre_filter_est, traceCore_filter_est,
      filter_est_of_filter_data rest hd]
  · intro t ht
    simp [uncorrTrajs, mkTrajs] at ht
    obtain ⟨i, -, rfl⟩ := ht
    exact ⟨rfl, rfl⟩
  · rw [htr]
    have : noisyRef a = noisyFreshRef := by simp [noisyRef, hm]
    simp [traceCore, this]
  · simp [noisyRef, hm, noisyFreshRef, nominalRef]
  · unfold noisyVal
    rw [if_pos hm]
    split <;> simp

/-- Witness for C9 at concrete arguments (single qubit, mode 3). -/
theorem C9_witness :
    argsC9.calibration_states_given = false ∧ effNoiseMode argsC9 ≠ 0
    ∧ ((emqst argsC9).1.filter isEstimateEvent
        = [Ev.estimate (some reconRef), Ev.estimate none]
      ∧ (∀ t ∈ uncorrTrajs argsC9, t.setRef = nominalRef ∧ t.dataGen = 0)
      ∧ Ev.genData noisyFreshRef ∈ (emqst argsC9).1
      ∧ noisyRef argsC9 ≠ nominalRef
      ∧ noisyVal argsC9 ≠ PSet.pauli argsC9.n_qubits) :=
  ⟨rfl, by decide, C9_uncorrected_runs_under_nominal_set argsC9 rfl (by decide)⟩

/-- C10: every successfully completed run returns exactly the triple
(corrected infidelity trajectories, uncorrected infidelity
trajectories, corrected final estimates), in that order; the
uncorrected final estimates are persisted in the `QST_results` file
but are not among the returned values. -/
theorem C10_returns_triple_uncorrected_rho_only_persisted (a : EmArgs)
    (r : EmRet) (h : (emqst a).2 = Except.ok r) :
    r = ⟨corrTrajs a, uncorrTrajs a, corrRho⟩
    ∧ Ev.savedResults (corrTrajs a) (uncorrTrajs a) corrRho uncorrRho
        ∈ (emqst a).1
    ∧ r.corrected_rho_estm ≠ uncorrRho := by
  obtain ⟨h1, h2⟩ := emqst_ok_inv a r h
  subst h1
  refine ⟨rfl, ?_, ?_⟩
  · simpa [savedResultsEv] using h2
  · simp [retOf, corrRho, uncorrRho, reconRef, nominalRef]

/-- Witness for C10 at concrete arguments. -/
theorem C10_witness :
    (emqst argsC10).2 = Except.ok (retOf argsC10)
    ∧ (retOf argsC10 = ⟨corrTrajs argsC10, uncorrTrajs argsC10, corrRho⟩
      ∧ Ev.savedResults (corrTrajs argsC10) (uncorrTrajs argsC10) corrRho uncorrRho
          ∈ (emqst argsC10).1
      ∧ (retOf argsC10).corrected_rho_estm ≠ uncorrRho) :=
  ⟨rfl,
   C10_returns_triple_uncorrected_rho_only_persisted argsC10 (retOf argsC10) rfl⟩

end EMQST
